import Mathlib

/-!
Shallow embedding of the Sovereign-Labs hyperlane-infra topology core:
account/network resolution (src/configs/accounts.ts), validator-set and
relayer configuration (src/configs/agents.ts), the trust-group derivation
of the deploy scripts (src/bin/hyperlane.ts, src/bin/base-infra.ts), and
the agent runtime-environment construction of the AgentStack
(src/unnamed/part_002, src/lib/agent-stack.ts).
-/

namespace HyperInfra

/-- `NetworkType` enum from src/configs/accounts.ts. -/
inductive NetworkType
  | devnet
  | testnet
  | mainnet
deriving DecidableEq, Repr

/-- `Account` record from src/configs/accounts.ts: optional explicit
`network` and `customer` overrides. -/
structure Account where
  name : String
  id : String
  network : Option NetworkType := none
  customer : Option String := none
deriving DecidableEq, Repr

/-- `CORE_ACCOUNTS` from src/configs/accounts.ts. -/
def CORE_ACCOUNTS : List Account :=
  [{ name := "Ross", id := "590183691025",
     network := some NetworkType.devnet, customer := some "sovereign" }]

/-- `CUSTOMER_ACCOUNTS` from src/configs/accounts.ts (empty). -/
def CUSTOMER_ACCOUNTS : List Account := []

/-- `HYPERLANE_ACCOUNTS = [...CORE_ACCOUNTS, ...CUSTOMER_ACCOUNTS]`. -/
def HYPERLANE_ACCOUNTS : List Account := CORE_ACCOUNTS ++ CUSTOMER_ACCOUNTS

/-- `isCoreAccount`: true iff some core account has the same id. -/
def isCoreAccount (account : Account) : Bool :=
  CORE_ACCOUNTS.any (fun core => core.id == account.id)

/-- Kernel-executable model of JS `String.prototype.toLowerCase` (ASCII
letters, which is all the account catalogue uses). -/
def jsToLower (s : String) : String :=
  String.mk (s.data.map Char.toLower)

/-- Kernel-executable model of JS `split("-")` with its single-character
separator: splits the character list on every dash. -/
def jsSplitDash (s : String) : List String :=
  (s.data.splitOn (Char.ofNat 45)).map String.mk

/-- The name segment inspected by `getNetworkType`:
`account.name.toLowerCase().split("-")[1]` (JS index 1 of the split). -/
def networkNameSegment (account : Account) : Option String :=
  (jsSplitDash (jsToLower account.name))[1]?

/-- The `switch` of `getNetworkType`: maps a recognized token to its
network, anything else (including a missing segment) to none. -/
def parseNetworkToken : Option String → Option NetworkType
  | some "devnet" => some NetworkType.devnet
  | some "testnet" => some NetworkType.testnet
  | some "mainnet" => some NetworkType.mainnet
  | _ => none

/-- `getNetworkType` from src/configs/accounts.ts: explicit override wins
(the override is a non-empty enum string, hence always truthy in JS);
otherwise parse the name segment; otherwise throw. -/
def getNetworkType (account : Account) : Except String NetworkType :=
  match account.network with
  | some n => Except.ok n
  | none =>
    match parseNetworkToken (networkNameSegment account) with
    | some n => Except.ok n
    | none =>
      Except.error ("Unknown network type for account: " ++ account.name)

/-- `getCustomerName` from src/configs/accounts.ts. JS truthiness: an
empty-string `customer` falls through to the core/name fallback. -/
def getCustomerName (account : Account) : String :=
  let c := account.customer.getD ""
  if c ≠ "" then jsToLower c
  else if isCoreAccount account then "sovereign"
  else ((jsSplitDash (jsToLower account.name)).headD "")

/-- `accountsForNetwork` generalized over the registry: filters accounts
whose `getNetworkType` equals the given network; a thrown network-
resolution error in the JS filter callback aborts the whole call, so the
embedding is in `Except` and propagates the first error (left to right). -/
def accountsForNetworkIn : List Account → NetworkType → Except String (List Account)
  | [], _ => Except.ok []
  | account :: rest, network => do
    let netType ← getNetworkType account
    let tail ← accountsForNetworkIn rest network
    pure (if netType = network then account :: tail else tail)

/-- `accountsForNetwork` from src/configs/accounts.ts, over the repo's
`HYPERLANE_ACCOUNTS`. -/
def accountsForNetwork (network : NetworkType) : Except String (List Account) :=
  accountsForNetworkIn HYPERLANE_ACCOUNTS network

/-- The `trustedAccountIds` computation of the signature-bucket loop in
src/bin/hyperlane.ts (and `s3TrustedAccountIds` in src/bin/base-infra.ts):
`accountsForNetwork(network).filter(a => a.id !== account.id).map(a => a.id)`. -/
def trustedAccountIds (reg : List Account) (account : Account)
    (network : NetworkType) : Except String (List String) := do
  let accs ← accountsForNetworkIn reg network
  pure ((accs.filter (fun a => a.id != account.id)).map (fun a => a.id))

/-- `RelayerConfig` from src/configs/agents.ts. -/
structure RelayerConfig where
  accountId : String
  uniqueId : String
  chains : List String
deriving DecidableEq, Repr

/-- `relayerConfigs` from src/configs/agents.ts. -/
def relayerConfigs : List RelayerConfig :=
  [{ accountId := "455162986047", uniqueId := "relayer-testnet-1",
     chains := ["sovstarter", "ethtest"] }]

/-- `ValidatorConfig` from src/configs/agents.ts. -/
structure ValidatorConfig where
  chain : String
  accountId : String
  uniqueId : String
deriving DecidableEq, Repr

/-- State of a `ValidatorSetBuilder` (src/configs/agents.ts): chain,
declared size and the ordered accumulator of added account ids. -/
structure ValidatorSetBuilder where
  chain : String
  size : Nat
  accounts : List String
deriving DecidableEq, Repr

/-- `new ValidatorSetBuilder(chain, size = 3)`. -/
def ValidatorSetBuilder.create (chain : String) (size : Nat := 3) : ValidatorSetBuilder :=
  { chain := chain, size := size, accounts := [] }

/-- `addAccount`: appends to the accumulator, preserving call order. -/
def ValidatorSetBuilder.addAccount (b : ValidatorSetBuilder)
    (accountId : String) : ValidatorSetBuilder :=
  { b with accounts := b.accounts ++ [accountId] }

/-- The generated identity string for position `i` (1-based):
`validator-{chain}-{i}`. -/
def validatorUniqueId (chain : String) (pos : Nat) : String :=
  "validator-" ++ chain ++ "-" ++ toString pos

/-- `build()` from src/configs/agents.ts: throws unless the accumulator
length equals the declared size, otherwise emits one tuple per account in
order with a 1-based positional identity. -/
def ValidatorSetBuilder.build (b : ValidatorSetBuilder) :
    Except String (List ValidatorConfig) :=
  if b.accounts.length ≠ b.size then
    Except.error ("Validator set for chain " ++ b.chain ++ " has " ++
      toString b.accounts.length ++ " accounts, expected " ++ toString b.size)
  else
    Except.ok (b.accounts.enum.map (fun p =>
      { chain := b.chain, accountId := p.2,
        uniqueId := validatorUniqueId b.chain (p.1 + 1) }))

/-- A builder driven by a sequence of `addAccount` calls followed by
`build()`. -/
def buildFromCalls (chain : String) (size : Nat) (calls : List String) :
    Except String (List ValidatorConfig) :=
  (calls.foldl ValidatorSetBuilder.addAccount
    (ValidatorSetBuilder.create chain size)).build

/-- `duplexValidatorSet` from src/configs/agents.ts: one default-size
builder per chain of the pair, each fed the same ordered account list;
the first failing `build()` aborts the whole construction. -/
def duplexValidatorSet (chains : String × String) (accountIds : List String) :
    Except String (List (List ValidatorConfig)) := do
  let first ← buildFromCalls chains.1 3 accountIds
  let second ← buildFromCalls chains.2 3 accountIds
  pure [first, second]

/-- `validatorSets` from src/configs/agents.ts: the duplex construction
over the sovstarter/ethtest warp route. -/
def validatorSets : Except String (List (List ValidatorConfig)) :=
  duplexValidatorSet ("sovstarter", "ethtest")
    ["590183691025", "455162986047", "189265240691"]

/-- All AgentIdentity strings of the resolved plan: relayer uniqueIds
followed by every validator-generated identity. -/
def planIdentities : Except String (List String) := do
  let sets ← validatorSets
  pure (relayerConfigs.map (fun r => r.uniqueId) ++
    (sets.flatten.map (fun v => v.uniqueId)))

/-- A JS-object-like environment map: ordered association list with
unique keys maintained by `setEnv`. -/
def Env := List (String × String)

/-- JS property assignment `env[k] = v`: updates an existing key in place
(keeping its position) or appends a new one. -/
def setEnv (env : List (String × String)) (k v : String) : List (String × String) :=
  if env.any (fun p => p.1 == k) then
    env.map (fun p => if p.1 == k then (k, v) else p)
  else
    env ++ [(k, v)]

/-- JS property read `env[k]`. -/
def lookupEnv (env : List (String × String)) (k : String) : Option String :=
  (env.find? (fun p => p.1 == k)).map (fun p => p.2)

/-- `AgentType` from src/unnamed/part_002. -/
inductive AgentType
  | relayer
  | validator
deriving DecidableEq, Repr

/-- The default-value keys the AgentStack itself writes into the
environment (src/unnamed/part_002 lines 147-151 and 184-218). -/
def agentDefaultKeys (agentType : AgentType) : List String :=
  match agentType with
  | AgentType.relayer => ["HYP_DB", "NO_COLOR"]
  | AgentType.validator =>
    ["HYP_DB", "NO_COLOR", "HYP_VALIDATOR_TYPE", "HYP_VALIDATOR_ID",
     "HYP_CHECKPOINTSYNCER_TYPE", "HYP_CHECKPOINTSYNCER_BUCKET",
     "HYP_CHECKPOINTSYNCER_FOLDER"]

/-- The AgentStack warning text for a keyless validator
(src/unnamed/part_002 lines 193-197). -/
def missingKeyWarning : String :=
  "Deploying a validator without a key, agent will fail at runtime."

/-- The runtime-environment construction of the AgentStack constructor
(src/unnamed/part_002): spread the per-agent `props.environment`, then
assign `HYP_DB` and `NO_COLOR`; for validators, assign the signing-key
entries only when a `validatorKey` is present (emitting a warning
otherwise), read `HYP_ORIGINCHAINNAME` when wallet access is granted
(a missing value throws in JS), and assign the checkpoint-syncer
entries; for relayers, read `HYP_RELAYCHAINS` (a missing value throws).
Returns the final environment together with the emitted warnings. -/
def buildAgentEnv (agentType : AgentType) (uniqueId : String)
    (bucketName : String) (validatorKey : Option String)
    (validatorWalletAccess : Bool)
    (propsEnv : List (String × String)) :
    Except String (List (String × String) × List String) :=
  let env0 := setEnv (setEnv propsEnv "HYP_DB" "/data") "NO_COLOR" "1"
  match agentType with
  | AgentType.validator =>
    let keyResult : List (String × String) × List String :=
      match validatorKey with
      | some aliasName =>
        (setEnv (setEnv env0 "HYP_VALIDATOR_TYPE" "aws")
          "HYP_VALIDATOR_ID" aliasName, [])
      | none => (env0, [missingKeyWarning])
    let env1 := keyResult.1
    let walletCheck : Except String Unit :=
      if validatorWalletAccess then
        match lookupEnv env1 "HYP_ORIGINCHAINNAME" with
        | some _ => Except.ok ()
        | none => Except.error "TypeError: chain is undefined"
      else Except.ok ()
    match walletCheck with
    | Except.error e => Except.error e
    | Except.ok _ =>
      Except.ok (setEnv (setEnv (setEnv env1
        "HYP_CHECKPOINTSYNCER_TYPE" "s3")
        "HYP_CHECKPOINTSYNCER_BUCKET" bucketName)
        "HYP_CHECKPOINTSYNCER_FOLDER" uniqueId, keyResult.2)
  | AgentType.relayer =>
    match lookupEnv env0 "HYP_RELAYCHAINS" with
    | some _ => Except.ok (env0, [])
    | none => Except.error "TypeError: environment HYP_RELAYCHAINS is undefined"

/-- Modelled from the spec: `getAccountById` is imported by
src/bin/hyperlane.ts from the Account Registry but its definition is
absent from src/configs/accounts.ts; per the spec the registry "exposes
account lookup by identifier" and "any lookup miss (unknown accountId
reference, ...) is a fatal configuration error". -/
def getAccountById (reg : List Account) (accountId : String) :
    Except String Account :=
  match reg.find? (fun a => a.id == accountId) with
  | some a => Except.ok a
  | none => Except.error ("Unknown account id: " ++ accountId)

/-- The relayer deploy loop of src/bin/hyperlane.ts (lines 105-137):
resolve the account and its network, then build the AgentStack with
`environment = { HYP_RELAYCHAINS: relayer.chains.join(",") }`. Returns
the agent's resolved runtime environment. -/
def relayerDeployEnv (reg : List Account) (relayer : RelayerConfig)
    (bucketName : String) : Except String (List (String × String)) := do
  let account ← getAccountById reg relayer.accountId
  let _network ← getNetworkType account
  let result ← buildAgentEnv AgentType.relayer relayer.uniqueId bucketName
    none false [("HYP_RELAYCHAINS", String.intercalate "," relayer.chains)]
  pure result.1

/-- `true` iff `getNetworkType` resolves the account to exactly the given
network (used to characterize `accountsForNetworkIn`). -/
def resolvesToNetwork (network : NetworkType) (a : Account) : Bool :=
  match getNetworkType a with
  | Except.ok t => t == network
  | Except.error _ => false

section Lemmas

theorem foldl_addAccount (b : ValidatorSetBuilder) (calls : List String) :
    calls.foldl ValidatorSetBuilder.addAccount b =
      { chain := b.chain, size := b.size, accounts := b.accounts ++ calls } := by
  induction calls generalizing b with
  | nil => simp
  | cons c cs ih =>
    simp only [List.foldl_cons, ih, ValidatorSetBuilder.addAccount]
    simp

theorem buildFromCalls_eq (chain : String) (n : Nat) (calls : List String) :
    buildFromCalls chain n calls =
      ValidatorSetBuilder.build { chain := chain, size := n, accounts := calls } := by
  simp [buildFromCalls, foldl_addAccount, ValidatorSetBuilder.create]

theorem find?_replaceKey (env : List (String × String)) (k v k' : String) :
    ((env.map (fun p => if p.1 == k then (k, v) else p)).find?
        (fun p => p.1 == k')) =
      if k' = k then (env.find? (fun p => p.1 == k)).map (fun _ => (k, v))
      else env.find? (fun p => p.1 == k') := by
  induction env with
  | nil => simp
  | cons a rest ih =>
    simp only [List.map_cons]
    by_cases hak : a.1 = k
    · rw [if_pos (by simp [hak])]
      by_cases hk' : k' = k
      · subst hk'
        rw [List.find?_cons_of_pos _ (by simp), if_pos rfl,
          List.find?_cons_of_pos _ (by simp [hak])]
        simp
      · have hne : ¬((k, v).1 == k') = true := by
          simp
          exact fun h => hk' h.symm
        rw [List.find?_cons_of_neg
            (p := fun (q : String × String) => q.1 == k') _ hne, ih,
          if_neg hk', if_neg hk',
          List.find?_cons_of_neg
            (p := fun (q : String × String) => q.1 == k') _
            (by simp [hak]; exact fun h => hk' h.symm)]
    · rw [if_neg (by simp [hak])]
      by_cases ha2 : a.1 = k'
      · have hk' : ¬k' = k := fun h => hak (h ▸ ha2)
        rw [List.find?_cons_of_pos _ (by simp [ha2]), if_neg hk',
          List.find?_cons_of_pos _ (by simp [ha2])]
      · rw [List.find?_cons_of_neg _ (by simp [ha2]), ih]
        by_cases hk' : k' = k
        · subst hk'
          rw [if_pos rfl, if_pos rfl,
            List.find?_cons_of_neg _ (by simp [hak])]
        · rw [if_neg hk', if_neg hk',
            List.find?_cons_of_neg _ (by simp [ha2])]

theorem lookupEnv_setEnv (env : List (String × String)) (k v k' : String) :
    lookupEnv (setEnv env k v) k' =
      if k' = k then some v else lookupEnv env k' := by
  unfold setEnv lookupEnv
  by_cases hany : env.any (fun p => p.1 == k)
  · simp only [hany, if_true, find?_replaceKey]
    by_cases hk' : k' = k
    · simp only [hk', if_true]
      cases hfind : env.find? (fun p => p.1 == k) with
      | none =>
        rw [List.find?_eq_none] at hfind
        rcases List.any_eq_true.mp hany with ⟨p, hp, hpk⟩
        exact absurd hpk (by simpa using hfind p hp)
      | some q => simp [hfind]
    · simp [hk']
  · rw [if_neg hany, List.find?_append]
    have hnone : env.find? (fun p => p.1 == k) = none := by
      rw [List.find?_eq_none]
      intro x hx
      exact fun hxk => hany (List.any_eq_true.mpr ⟨x, hx, hxk⟩)
    by_cases hk' : k' = k
    · subst hk'
      simp [hnone]
    · cases hfind : env.find? (fun p => p.1 == k') with
      | some q => simp [hfind, hk']
      | none =>
        have hne : ¬((k, v).1 == k') = true := by
          simp
          exact fun h => hk' h.symm
        rw [List.find?_cons_of_neg
          (p := fun (q : String × String) => q.1 == k') _ hne]
        simp [hk']

theorem accountsForNetworkIn_ok (reg : List Account) (network : NetworkType)
    (h : ∀ a ∈ reg, (getNetworkType a).isOk) :
    accountsForNetworkIn reg network =
      Except.ok (reg.filter (resolvesToNetwork network)) := by
  induction reg with
  | nil => rfl
  | cons a rest ih =>
    have ha := h a (List.mem_cons_self a rest)
    cases hna : getNetworkType a with
    | error e =>
      rw [hna] at ha
      simp [Except.isOk, Except.toBool] at ha
    | ok t =>
      have hrest := ih (fun x hx => h x (List.mem_cons_of_mem a hx))
      unfold accountsForNetworkIn
      rw [hna, hrest]
      by_cases ht : t = network
      · simp [ht, List.filter_cons, resolvesToNetwork, hna, Except.bind,
          Bind.bind, pure, Except.pure]
      · simp [ht, List.filter_cons, resolvesToNetwork, hna, Except.bind,
          Bind.bind, pure, Except.pure]

end Lemmas

/-- C2: for every `ValidatorSetBuilder` with declared size `n` and any
sequence of `addAccount` calls, `build()` succeeds iff exactly `n` calls
were made; on success it returns one tuple per accumulated account in
call order, the i-th (1-based) tuple carrying the identity
`validator-{chain}-{i}`; otherwise it fails and emits no tuples. -/
theorem validatorSetBuilder_build_spec (chain : String) (n : Nat)
    (calls : List String) :
    (calls.length = n →
      buildFromCalls chain n calls = Except.ok (calls.enum.map (fun p =>
        { chain := chain, accountId := p.2,
          uniqueId := validatorUniqueId chain (p.1 + 1) }))) ∧
    (calls.length ≠ n →
      ∃ msg, buildFromCalls chain n calls = Except.error msg) ∧
    (∀ vs, buildFromCalls chain n calls = Except.ok vs →
      vs.length = calls.length ∧
      ∀ i a, calls[i]? = some a →
        vs[i]? = some (ValidatorConfig.mk chain a
          (validatorUniqueId chain (i + 1)))) := by
  rw [buildFromCalls_eq]
  unfold ValidatorSetBuilder.build
  refine ⟨fun h => by simp [h], fun h => by simp [h], fun vs hvs => ?_⟩
  by_cases h : calls.length = n
  · simp only [h, ne_eq, not_true_eq_false, if_false, Except.ok.injEq] at hvs
    subst hvs
    constructor
    · simp
    · intro i a hia
      simp [List.getElem?_map, List.getElem?_enum, hia]
  · simp [h] at hvs

/-- Witness for C2 at concrete inputs: three calls against size 3 succeed
with the expected 1-based identities, two calls against size 3 fail, and
the indexwise description holds of the successful build. -/
theorem validatorSetBuilder_build_spec_witness :
    buildFromCalls "sovstarter" 3 ["a1", "a2", "a3"] = Except.ok
      [{ chain := "sovstarter", accountId := "a1",
         uniqueId := "validator-sovstarter-1" },
       { chain := "sovstarter", accountId := "a2",
         uniqueId := "validator-sovstarter-2" },
       { chain := "sovstarter", accountId := "a3",
         uniqueId := "validator-sovstarter-3" }] ∧
    (∃ msg, buildFromCalls "sovstarter" 3 ["a1", "a2"] = Except.error msg) := by
  constructor
  · have h := (validatorSetBuilder_build_spec "sovstarter" 3
      ["a1", "a2", "a3"]).1 (by decide)
    rw [h]
    simp [List.enum, List.enumFrom, validatorUniqueId]
    refine ⟨by decide, by decide, by decide⟩
  · exact (validatorSetBuilder_build_spec "sovstarter" 3 ["a1", "a2"]).2.1
      (by decide)

/-- C4: the duplex construction on chains `["A","B"]` and accounts
`[x,y,z]` yields exactly two ValidatorSets, the first being
`(A,x,validator-A-1), (A,y,validator-A-2), (A,z,validator-A-3)` and the
second `(B,x,validator-B-1), (B,y,validator-B-2), (B,z,validator-B-3)`
in order, and the two identity namespaces are disjoint. -/
theorem duplexValidatorSet_AB_spec (x y z : String) :
    duplexValidatorSet ("A", "B") [x, y, z] = Except.ok
      [[ValidatorConfig.mk "A" x "validator-A-1",
        ValidatorConfig.mk "A" y "validator-A-2",
        ValidatorConfig.mk "A" z "validator-A-3"],
       [ValidatorConfig.mk "B" x "validator-B-1",
        ValidatorConfig.mk "B" y "validator-B-2",
        ValidatorConfig.mk "B" z "validator-B-3"]] ∧
    (∀ s ∈ ["validator-A-1", "validator-A-2", "validator-A-3"],
      s ∉ ["validator-B-1", "validator-B-2", "validator-B-3"]) := by
  constructor
  · simp [duplexValidatorSet, buildFromCalls, ValidatorSetBuilder.build,
      ValidatorSetBuilder.create, ValidatorSetBuilder.addAccount,
      List.foldl, validatorUniqueId, List.enum, List.enumFrom,
      Except.bind, Bind.bind, pure, Except.pure]
    refine ⟨⟨by decide, by decide, by decide⟩, by decide, by decide, by decide⟩
  · decide

/-- Witness for C4 at concrete accounts: the first chain's identities are
outside the second chain's namespace. -/
theorem duplexValidatorSet_AB_spec_witness :
    ("validator-A-1" : String) ∉
      ["validator-B-1", "validator-B-2", "validator-B-3"] :=
  (duplexValidatorSet_AB_spec "x" "y" "z").2 "validator-A-1" (by decide)

/-- C10: the duplex construction hardwires validator-set size 3: it
succeeds exactly when the shared account list has length 3, every emitted
set has exactly 3 entries, and no other size can be requested through it
(its success is equivalent to length 3 for all inputs). -/
theorem duplexValidatorSet_size3_spec (c1 c2 : String) (ids : List String) :
    ((duplexValidatorSet (c1, c2) ids).isOk = true ↔ ids.length = 3) ∧
    (∀ sets, duplexValidatorSet (c1, c2) ids = Except.ok sets →
      ∀ s ∈ sets, s.length = 3) := by
  have hbuild : ∀ c : String, buildFromCalls c 3 ids =
      if ids.length = 3 then
        Except.ok (ids.enum.map (fun p =>
          ValidatorConfig.mk c p.2 (validatorUniqueId c (p.1 + 1))))
      else
        Except.error ("Validator set for chain " ++ c ++ " has " ++
          toString ids.length ++ " accounts, expected " ++ toString 3) := by
    intro c
    rw [buildFromCalls_eq]
    unfold ValidatorSetBuilder.build
    by_cases h : ids.length = 3 <;> simp [h]
  unfold duplexValidatorSet
  by_cases h : ids.length = 3
  · simp only [hbuild, h, if_true, Except.bind, Bind.bind, pure, Except.pure]
    constructor
    · simp [Except.isOk, Except.toBool, h]
    · intro sets hs s hmem
      rw [Except.ok.injEq] at hs
      subst hs
      simp only [List.mem_cons, List.not_mem_nil, or_false] at hmem
      rcases hmem with hmem | hmem <;> subst hmem <;> simp [h]
  · simp only [hbuild, h, if_false, Except.bind, Bind.bind]
    constructor
    · simp [Except.isOk, Except.toBool, h]
    · intro sets hs
      simp at hs

/-- Witness for C10 at concrete inputs: a two-account list fails, a
three-account list succeeds and both emitted sets have three entries. -/
theorem duplexValidatorSet_size3_spec_witness :
    (duplexValidatorSet ("A", "B") ["x", "y"]).isOk = false ∧
    (duplexValidatorSet ("A", "B") ["x", "y", "z"]).isOk = true ∧
    (∀ s ∈ [[ValidatorConfig.mk "A" "x" "validator-A-1",
        ValidatorConfig.mk "A" "y" "validator-A-2",
        ValidatorConfig.mk "A" "z" "validator-A-3"],
       [ValidatorConfig.mk "B" "x" "validator-B-1",
        ValidatorConfig.mk "B" "y" "validator-B-2",
        ValidatorConfig.mk "B" "z" "validator-B-3"]], s.length = 3) := by
  refine ⟨?_, ?_, ?_⟩
  · have h := (duplexValidatorSet_size3_spec "A" "B" ["x", "y"]).1
    cases hok : (duplexValidatorSet ("A", "B") ["x", "y"]).isOk
    · rfl
    · exact absurd (h.mp hok) (by decide)
  · exact (duplexValidatorSet_size3_spec "A" "B" ["x", "y", "z"]).1.mpr
      (by decide)
  · exact (duplexValidatorSet_size3_spec "A" "B" ["x", "y", "z"]).2 _
      (by rfl)

/-- The two identical validator sets produced by a duplicate-chain duplex
configuration, used to refute C1's failure requirement. -/
def collidingSets : List (List ValidatorConfig) :=
  [[ValidatorConfig.mk "chainA" "x" "validator-chainA-1",
    ValidatorConfig.mk "chainA" "y" "validator-chainA-2",
    ValidatorConfig.mk "chainA" "z" "validator-chainA-3"],
   [ValidatorConfig.mk "chainA" "x" "validator-chainA-1",
    ValidatorConfig.mk "chainA" "y" "validator-chainA-2",
    ValidatorConfig.mk "chainA" "z" "validator-chainA-3"]]

/-- C1 counterexample: a duplex configuration whose two chains coincide
is emitted successfully (no failure anywhere in the construction), yet
the union of relayer uniqueIds and validator identities of the resulting
plan contains duplicates — so a plan with a duplicate AgentIdentity does
NOT fail before emission. -/
theorem duplicate_identities_emitted_without_failure :
    duplexValidatorSet ("chainA", "chainA") ["x", "y", "z"] =
      Except.ok collidingSets ∧
    ¬ (relayerConfigs.map (fun r => r.uniqueId) ++
        collidingSets.flatten.map (fun v => v.uniqueId)).Nodup := by
  constructor
  · rfl
  · decide

/-- C1 amended: the identity union of the repository's actual static
configuration (its relayer uniqueIds plus all validator identities of its
resolved validator sets) contains no duplicates; however, no uniqueness
check exists, so a configuration producing a duplicate does not fail. -/
theorem planIdentities_nodup :
    planIdentities = Except.ok
      ["relayer-testnet-1", "validator-sovstarter-1", "validator-sovstarter-2",
       "validator-sovstarter-3", "validator-ethtest-1", "validator-ethtest-2",
       "validator-ethtest-3"] ∧
    List.Nodup
      ["relayer-testnet-1", "validator-sovstarter-1", "validator-sovstarter-2",
       "validator-sovstarter-3", "validator-ethtest-1", "validator-ethtest-2",
       "validator-ethtest-3"] := by
  constructor
  · rfl
  · decide

/-- C3: when every account in the registry has a resolvable network, the
trusted-account-id list for a core account `A` hosting network `N`'s
signature storage is exactly the ids of the accounts resolving to `N`
other than those with `A`'s own id, and `A`'s own id never appears in it. -/
theorem trustedAccountIds_spec (reg : List Account) (A : Account)
    (N : NetworkType) (h : ∀ a ∈ reg, (getNetworkType a).isOk) :
    trustedAccountIds reg A N = Except.ok
      (((reg.filter (resolvesToNetwork N)).filter
        (fun a => a.id != A.id)).map (fun a => a.id)) ∧
    ∀ ids, trustedAccountIds reg A N = Except.ok ids → A.id ∉ ids := by
  have hacc := accountsForNetworkIn_ok reg N h
  have heq : trustedAccountIds reg A N = Except.ok
      (((reg.filter (resolvesToNetwork N)).filter
        (fun a => a.id != A.id)).map (fun a => a.id)) := by
    unfold trustedAccountIds
    rw [hacc]
    rfl
  refine ⟨heq, fun ids hids hmem => ?_⟩
  rw [heq, Except.ok.injEq] at hids
  subst hids
  rcases List.mem_map.mp hmem with ⟨a, ha, haid⟩
  rcases List.mem_filter.mp ha with ⟨_, hne⟩
  rw [haid] at hne
  simp at hne

/-- Witness for C3 at the repository's registry: every account of
`HYPERLANE_ACCOUNTS` resolves, and the single core account's own id is
absent from any devnet trust list. -/
theorem trustedAccountIds_spec_witness :
    (∀ a ∈ HYPERLANE_ACCOUNTS, (getNetworkType a).isOk) ∧
    ∀ ids, trustedAccountIds HYPERLANE_ACCOUNTS
        (Account.mk "Ross" "590183691025" (some NetworkType.devnet)
          (some "sovereign")) NetworkType.devnet = Except.ok ids →
      "590183691025" ∉ ids :=
  ⟨by decide, (trustedAccountIds_spec HYPERLANE_ACCOUNTS
    (Account.mk "Ross" "590183691025" (some NetworkType.devnet)
      (some "sovereign")) NetworkType.devnet (by decide)).2⟩

/-- C5: an explicit `network` override is returned unchanged and never
fails; with no override, resolution fails exactly on names whose fixed
segment is not a recognized network token, and a successful resolution is
never a silent default (it comes from the override or the parsed token). -/
theorem getNetworkType_spec (a : Account) :
    (∀ n, a.network = some n → getNetworkType a = Except.ok n) ∧
    (a.network = none → parseNetworkToken (networkNameSegment a) = none →
      ∃ msg, getNetworkType a = Except.error msg) ∧
    (∀ n, a.network = none → getNetworkType a = Except.ok n →
      parseNetworkToken (networkNameSegment a) = some n) := by
  refine ⟨?_, ?_, ?_⟩
  · intro n hn
    unfold getNetworkType
    rw [hn]
  · intro hn hp
    unfold getNetworkType
    rw [hn, hp]
    exact ⟨_, rfl⟩
  · intro n hn hok
    unfold getNetworkType at hok
    rw [hn] at hok
    cases hp : parseNetworkToken (networkNameSegment a) with
    | some m =>
      rw [hp] at hok
      cases hok
      rfl
    | none =>
      rw [hp] at hok
      cases hok

/-- Witness for C5: the override account resolves to its override; an
account with neither override nor parseable name segment fails. -/
theorem getNetworkType_spec_witness :
    getNetworkType (Account.mk "Ross" "590183691025"
      (some NetworkType.devnet) (some "sovereign")) =
      Except.ok NetworkType.devnet ∧
    (∃ msg, getNetworkType (Account.mk "weird" "000000000000" none none) =
      Except.error msg) :=
  ⟨(getNetworkType_spec (Account.mk "Ross" "590183691025"
      (some NetworkType.devnet) (some "sovereign"))).1 _ rfl,
   (getNetworkType_spec (Account.mk "weird" "000000000000" none none)).2.1
      rfl (by decide)⟩

/-- C6 counterexample: `getCustomerName` returns "sovereign" (not the
claimed "core") for a core account with no owner override, and it
lowercases an explicit override rather than returning it verbatim. -/
theorem getCustomerName_claim_cex :
    getCustomerName (Account.mk "Ross" "590183691025"
      (some NetworkType.devnet) none) = "sovereign" ∧
    ("sovereign" : String) ≠ "core" ∧
    getCustomerName (Account.mk "X" "111111111111" none (some "Bob")) = "bob" ∧
    ("bob" : String) ≠ "Bob" := by
  refine ⟨by decide, by decide, by decide, by decide⟩

/-- C6 amended: `getCustomerName` never fails: it returns the lowercased
explicit owner override when present and non-empty, otherwise the string
"sovereign" when the account is a core account, otherwise the first
segment of the lowercased account name. -/
theorem getCustomerName_spec (a : Account) :
    (∀ c, a.customer = some c → c ≠ "" → getCustomerName a = jsToLower c) ∧
    ((a.customer = none ∨ a.customer = some "") → isCoreAccount a = true →
      getCustomerName a = "sovereign") ∧
    ((a.customer = none ∨ a.customer = some "") → isCoreAccount a = false →
      getCustomerName a = ((jsSplitDash (jsToLower a.name)).headD "")) := by
  unfold getCustomerName
  refine ⟨?_, ?_, ?_⟩
  · intro c hc hne
    rw [hc]
    simp [hne]
  · rintro (hc | hc) hcore <;> rw [hc] <;> simp [hcore]
  · rintro (hc | hc) hcore <;> rw [hc] <;> simp [hcore]

/-- Witness for C6 at concrete accounts: a non-empty override is
lowercased; a core account without override maps to "sovereign". -/
theorem getCustomerName_spec_witness :
    getCustomerName (Account.mk "X" "111111111111" none (some "Bob")) =
      "bob" ∧
    getCustomerName (Account.mk "Ross" "590183691025"
      (some NetworkType.devnet) none) = "sovereign" :=
  ⟨((getCustomerName_spec (Account.mk "X" "111111111111" none
      (some "Bob"))).1 "Bob" rfl (by decide)).trans (by decide),
   (getCustomerName_spec (Account.mk "Ross" "590183691025"
      (some NetworkType.devnet) none)).2.1 (Or.inl rfl) (by decide)⟩

section AgentEnvLemmas

theorem buildAgentEnv_validator_some (uid bucket aliasName : String)
    (propsEnv : List (String × String)) :
    buildAgentEnv AgentType.validator uid bucket (some aliasName) false
        propsEnv =
      Except.ok (setEnv (setEnv (setEnv (setEnv (setEnv (setEnv (setEnv
        propsEnv "HYP_DB" "/data") "NO_COLOR" "1")
        "HYP_VALIDATOR_TYPE" "aws") "HYP_VALIDATOR_ID" aliasName)
        "HYP_CHECKPOINTSYNCER_TYPE" "s3")
        "HYP_CHECKPOINTSYNCER_BUCKET" bucket)
        "HYP_CHECKPOINTSYNCER_FOLDER" uid, []) :=
  rfl

theorem buildAgentEnv_validator_none (uid bucket : String)
    (propsEnv : List (String × String)) :
    buildAgentEnv AgentType.validator uid bucket none false propsEnv =
      Except.ok (setEnv (setEnv (setEnv (setEnv (setEnv
        propsEnv "HYP_DB" "/data") "NO_COLOR" "1")
        "HYP_CHECKPOINTSYNCER_TYPE" "s3")
        "HYP_CHECKPOINTSYNCER_BUCKET" bucket)
        "HYP_CHECKPOINTSYNCER_FOLDER" uid, [missingKeyWarning]) :=
  rfl

theorem buildAgentEnv_relayer (uid bucket : String)
    (propsEnv : List (String × String)) :
    buildAgentEnv AgentType.relayer uid bucket none false propsEnv =
      match lookupEnv (setEnv (setEnv propsEnv "HYP_DB" "/data")
          "NO_COLOR" "1") "HYP_RELAYCHAINS" with
      | some _ => Except.ok (setEnv (setEnv propsEnv "HYP_DB" "/data")
          "NO_COLOR" "1", [])
      | none =>
        Except.error "TypeError: environment HYP_RELAYCHAINS is undefined" :=
  rfl

end AgentEnvLemmas

/-- C7 counterexample: a validator built with a per-agent environment
override for the checkpoint-storage folder does not see the override win:
the agent-kind default (the AgentIdentity) overwrites it in the resolved
configuration, so "a later override wins over a default" is false. -/
theorem agentEnvironment_override_loses :
    buildAgentEnv AgentType.validator "validator-A-1" "sigs-bucket"
        (some "alias/validator-A-1") false
        [("HYP_ORIGINCHAINNAME", "A"),
         ("HYP_CHECKPOINTSYNCER_FOLDER", "custom")] =
      Except.ok ([("HYP_ORIGINCHAINNAME", "A"),
        ("HYP_CHECKPOINTSYNCER_FOLDER", "validator-A-1"),
        ("HYP_DB", "/data"), ("NO_COLOR", "1"),
        ("HYP_VALIDATOR_TYPE", "aws"),
        ("HYP_VALIDATOR_ID", "alias/validator-A-1"),
        ("HYP_CHECKPOINTSYNCER_TYPE", "s3"),
        ("HYP_CHECKPOINTSYNCER_BUCKET", "sigs-bucket")], []) ∧
    lookupEnv [("HYP_ORIGINCHAINNAME", "A"),
        ("HYP_CHECKPOINTSYNCER_FOLDER", "validator-A-1"),
        ("HYP_DB", "/data"), ("NO_COLOR", "1"),
        ("HYP_VALIDATOR_TYPE", "aws"),
        ("HYP_VALIDATOR_ID", "alias/validator-A-1"),
        ("HYP_CHECKPOINTSYNCER_TYPE", "s3"),
        ("HYP_CHECKPOINTSYNCER_BUCKET", "sigs-bucket")]
      "HYP_CHECKPOINTSYNCER_FOLDER" = some "validator-A-1" ∧
    some "validator-A-1" ≠ (some "custom" : Option String) := by
  refine ⟨rfl, rfl, by decide⟩

/-- C7 amended: the resolved runtime configuration merges the per-agent
environment overrides with the agent-kind defaults, but on a key collision
the DEFAULT wins (the override is shadowed by the default, never the
reverse); every default key is always present with its default value, and
every override key that does not collide with a default key is preserved
unchanged (for relayers the comma-joined chain list arrives as such a
non-colliding override key and is preserved). -/
theorem agentEnvironment_merge_spec (uid bucket aliasName : String)
    (propsEnv : List (String × String)) :
    (∀ env warns,
      buildAgentEnv AgentType.validator uid bucket (some aliasName) false
          propsEnv = Except.ok (env, warns) →
      lookupEnv env "HYP_VALIDATOR_TYPE" = some "aws" ∧
      lookupEnv env "HYP_VALIDATOR_ID" = some aliasName ∧
      lookupEnv env "HYP_CHECKPOINTSYNCER_TYPE" = some "s3" ∧
      lookupEnv env "HYP_CHECKPOINTSYNCER_BUCKET" = some bucket ∧
      lookupEnv env "HYP_CHECKPOINTSYNCER_FOLDER" = some uid ∧
      lookupEnv env "HYP_DB" = some "/data" ∧
      lookupEnv env "NO_COLOR" = some "1" ∧
      (∀ k, k ∉ agentDefaultKeys AgentType.validator →
        lookupEnv env k = lookupEnv propsEnv k)) ∧
    (∀ env warns,
      buildAgentEnv AgentType.relayer uid bucket none false propsEnv =
          Except.ok (env, warns) →
      lookupEnv env "HYP_DB" = some "/data" ∧
      lookupEnv env "NO_COLOR" = some "1" ∧
      (∀ k, k ∉ agentDefaultKeys AgentType.relayer →
        lookupEnv env k = lookupEnv propsEnv k)) := by
  constructor
  · intro env warns hok
    rw [buildAgentEnv_validator_some, Except.ok.injEq, Prod.mk.injEq] at hok
    obtain ⟨henv, hwarns⟩ := hok
    subst henv
    refine ⟨?_, ?_, ?_, ?_, ?_, ?_, ?_, ?_⟩
    · simp [lookupEnv_setEnv]
    · simp [lookupEnv_setEnv]
    · simp [lookupEnv_setEnv]
    · simp [lookupEnv_setEnv]
    · simp [lookupEnv_setEnv]
    · simp [lookupEnv_setEnv]
    · simp [lookupEnv_setEnv]
    · intro k hk
      simp only [agentDefaultKeys, List.mem_cons, List.not_mem_nil,
        or_false, not_or] at hk
      obtain ⟨h1, h2, h3, h4, h5, h6, h7⟩ := hk
      simp [lookupEnv_setEnv, h1, h2, h3, h4, h5, h6, h7]
  · intro env warns hok
    rw [buildAgentEnv_relayer] at hok
    cases hlook : lookupEnv (setEnv (setEnv propsEnv "HYP_DB" "/data")
        "NO_COLOR" "1") "HYP_RELAYCHAINS" with
    | none => rw [hlook] at hok; cases hok
    | some s =>
      rw [hlook, Except.ok.injEq, Prod.mk.injEq] at hok
      obtain ⟨henv, hwarns⟩ := hok
      subst henv
      refine ⟨?_, ?_, ?_⟩
      · simp [lookupEnv_setEnv]
      · simp [lookupEnv_setEnv]
      · intro k hk
        simp only [agentDefaultKeys, List.mem_cons, List.not_mem_nil,
          or_false, not_or] at hk
        obtain ⟨h1, h2⟩ := hk
        simp [lookupEnv_setEnv, h1, h2]

/-- Witness for C7's amended statement at concrete inputs: the defaults
are present and a non-colliding override key survives the merge. -/
theorem agentEnvironment_merge_spec_witness :
    lookupEnv [("HYP_ORIGINCHAINNAME", "A"),
        ("HYP_DB", "/data"), ("NO_COLOR", "1"),
        ("HYP_VALIDATOR_TYPE", "aws"),
        ("HYP_VALIDATOR_ID", "alias/validator-A-1"),
        ("HYP_CHECKPOINTSYNCER_TYPE", "s3"),
        ("HYP_CHECKPOINTSYNCER_BUCKET", "sigs-bucket"),
        ("HYP_CHECKPOINTSYNCER_FOLDER", "validator-A-1")]
      "HYP_ORIGINCHAINNAME" =
    lookupEnv [("HYP_ORIGINCHAINNAME", "A")] "HYP_ORIGINCHAINNAME" :=
  (agentEnvironment_merge_spec "validator-A-1" "sigs-bucket"
    "alias/validator-A-1" [("HYP_ORIGINCHAINNAME", "A")]).1 _ _ rfl
    |>.2.2.2.2.2.2.2 "HYP_ORIGINCHAINNAME" (by decide)

/-- C8: the account/relayer-route scenario resolves to a runtime
configuration whose chain-list environment value is the literal string
"sovstarter,ethtest" (the chains joined with a single comma, in order). -/
theorem relayer_chainlist_scenario :
    relayerDeployEnv
        [Account.mk "Ross" "590183691025" (some NetworkType.devnet)
          (some "sovereign")]
        (RelayerConfig.mk "590183691025" "relayer-testnet-1"
          ["sovstarter", "ethtest"])
        "signatures-bucket" =
      Except.ok [("HYP_RELAYCHAINS", "sovstarter,ethtest"),
        ("HYP_DB", "/data"), ("NO_COLOR", "1")] ∧
    lookupEnv [("HYP_RELAYCHAINS", "sovstarter,ethtest"),
        ("HYP_DB", "/data"), ("NO_COLOR", "1")] "HYP_RELAYCHAINS" =
      some "sovstarter,ethtest" := by
  exact ⟨rfl, rfl⟩

/-- C9: a validator built without a resolved signing key does not fail:
it emits exactly the non-fatal missing-key warning and its configuration
omits the signing-key-identity entries; with a key, no warning is emitted
and the key reference is included; and a precondition failure of the
other agent kind (a relayer without its chain-list value) remains fatal. -/
theorem validator_missing_key_spec (uid bucket aliasName : String)
    (propsEnv : List (String × String)) :
    (∀ env warns,
      buildAgentEnv AgentType.validator uid bucket none false propsEnv =
          Except.ok (env, warns) →
      warns = [missingKeyWarning] ∧
      (lookupEnv propsEnv "HYP_VALIDATOR_TYPE" = none →
        lookupEnv env "HYP_VALIDATOR_TYPE" = none) ∧
      (lookupEnv propsEnv "HYP_VALIDATOR_ID" = none →
        lookupEnv env "HYP_VALIDATOR_ID" = none)) ∧
    (buildAgentEnv AgentType.validator uid bucket none false
      propsEnv).isOk = true ∧
    (∀ env warns,
      buildAgentEnv AgentType.validator uid bucket (some aliasName) false
          propsEnv = Except.ok (env, warns) →
      warns = [] ∧
      lookupEnv env "HYP_VALIDATOR_TYPE" = some "aws" ∧
      lookupEnv env "HYP_VALIDATOR_ID" = some aliasName) ∧
    (lookupEnv propsEnv "HYP_RELAYCHAINS" = none →
      ∃ msg, buildAgentEnv AgentType.relayer uid bucket none false
        propsEnv = Except.error msg) := by
  refine ⟨?_, ?_, ?_, ?_⟩
  · intro env warns hok
    rw [buildAgentEnv_validator_none, Except.ok.injEq, Prod.mk.injEq] at hok
    obtain ⟨henv, hwarns⟩ := hok
    subst henv
    refine ⟨hwarns.symm, ?_, ?_⟩
    · intro hp
      simp [lookupEnv_setEnv, hp]
    · intro hp
      simp [lookupEnv_setEnv, hp]
  · rw [buildAgentEnv_validator_none]
    rfl
  · intro env warns hok
    rw [buildAgentEnv_validator_some, Except.ok.injEq, Prod.mk.injEq] at hok
    obtain ⟨henv, hwarns⟩ := hok
    subst henv
    exact ⟨hwarns.symm, by simp [lookupEnv_setEnv], by simp [lookupEnv_setEnv]⟩
  · intro hp
    rw [buildAgentEnv_relayer]
    have hnone : lookupEnv (setEnv (setEnv propsEnv "HYP_DB" "/data")
        "NO_COLOR" "1") "HYP_RELAYCHAINS" = none := by
      simp [lookupEnv_setEnv, hp]
    rw [hnone]
    exact ⟨_, rfl⟩

/-- Witness for C9 at concrete inputs: the keyless validator build
succeeds with exactly the warning and without the key entries; the keyed
build succeeds silently with the key; a relayer without its chain list
fails. -/
theorem validator_missing_key_spec_witness :
    ((buildAgentEnv AgentType.validator "validator-A-1" "sigs-bucket" none
      false [("HYP_ORIGINCHAINNAME", "A")]).isOk = true) ∧
    lookupEnv [("HYP_ORIGINCHAINNAME", "A"), ("HYP_DB", "/data"),
        ("NO_COLOR", "1"), ("HYP_CHECKPOINTSYNCER_TYPE", "s3"),
        ("HYP_CHECKPOINTSYNCER_BUCKET", "sigs-bucket"),
        ("HYP_CHECKPOINTSYNCER_FOLDER", "validator-A-1")]
      "HYP_VALIDATOR_ID" = none ∧
    (∃ msg, buildAgentEnv AgentType.relayer "relayer-1" "sigs-bucket" none
      false [("HYP_ORIGINCHAINNAME", "A")] = Except.error msg) := by
  refine ⟨?_, ?_, ?_⟩
  · exact (validator_missing_key_spec "validator-A-1" "sigs-bucket"
      "unused-alias" [("HYP_ORIGINCHAINNAME", "A")]).2.1
  · exact ((validator_missing_key_spec "validator-A-1" "sigs-bucket"
      "unused-alias" [("HYP_ORIGINCHAINNAME", "A")]).1 _ _ rfl).2.2
      (by decide)
  · exact (validator_missing_key_spec "relayer-1" "sigs-bucket"
      "unused-alias" [("HYP_ORIGINCHAINNAME", "A")]).2.2.2 (by decide)

end HyperInfra
